import Mathlib

/-!
Shallow embedding of the billing and eligibility engine of the
`energy-front` repository (files `docs/js/calculator.js` and the
guaranteed-discount module), together with theorems settling the
specification claims about it.

JavaScript numbers are modelled as rationals (`ℚ`); absent / `null`
fields as `Option`; JavaScript truthiness on numbers and strings is
modelled by the `truthyQ` / `truthyS` helpers (`0`, `""`, `null` and
`undefined` are falsy).
-/

/-- JavaScript `Math.abs` on rationals, written as an explicit
conditional so that it evaluates inside the kernel. -/
def ratAbs (x : ℚ) : ℚ :=
  if x < 0 then -x else x

/-- JavaScript `Math.max` on rationals, written as an explicit
conditional so that it evaluates inside the kernel. -/
def ratMax (a b : ℚ) : ℚ :=
  if a ≤ b then b else a

/-- JavaScript `Math.min` on rationals, written as an explicit
conditional so that it evaluates inside the kernel. -/
def ratMin (a b : ℚ) : ℚ :=
  if a ≤ b then a else b

/-- Truthiness of an optional JavaScript number: `null`, `undefined`
and `0` are falsy; every other number is returned unchanged. -/
def truthyQ (o : Option ℚ) : Option ℚ :=
  o.bind fun v => if v = 0 then none else some v

/-- Truthiness of an optional JavaScript string: `null`, `undefined`
and the empty string are falsy. -/
def truthyS (o : Option String) : Option String :=
  o.bind fun s => if s = "" then none else some s

/-- Usage pattern entered by the user (`usagePattern` in
`calculator.js`): quarterly net-grid consumption, the three
time-of-use percentages and the quarterly solar export (the
destructuring default `solarExport = 0` is represented by callers
passing `0`). -/
structure UsagePattern where
  quarterlyConsumption : ℚ
  peakPercent : ℚ
  shoulderPercent : ℚ
  offPeakPercent : ℚ
  solarExport : ℚ
  deriving DecidableEq, Inhabited

/-- One solar feed-in tier as produced by `extractSolarFitRates`:
a rate in cents/kWh and an optional daily volume bound
(`volume = null` means unbounded). -/
structure SolarTier where
  rate : ℚ
  volume : Option ℚ
  deriving DecidableEq, Inhabited

/-- Raw membership-fee record (`planData.fees.membership_fee`):
a fee term code (`"A"` = annual) and an optional amount. -/
structure MembershipFee where
  feeTerm : String
  amount : Option ℚ
  deriving DecidableEq, Inhabited

/-- One entry of `planData.detailed_time_blocks`, as read by
`shouldDisqualifyPlan`: the time-of-use period code and the block
name. -/
structure TimeBlock where
  time_of_use_period : Option String
  name : Option String
  deriving DecidableEq, Inhabited

/-- One tariff period of a raw contract (`contract.tariffPeriod[i]`).
Only the `demandCharge` array matters to the engine; its entries are
opaque. -/
structure TariffPeriod where
  demandCharge : Option (List Unit)
  deriving DecidableEq, Inhabited

/-- One raw contract (`planData.raw_plan_data_complete
.main_api_response.planData.contract[i]`). -/
structure RawContract where
  tariffPeriod : Option (List TariffPeriod)
  deriving DecidableEq, Inhabited

/-- Quarterly PCR reference costs (`main_api_response.pcr.costs
.electricity.large.quarterly`) used by the discount classifier. -/
structure PcrCosts where
  noDiscounts : Option ℚ
  allDiscounts : Option ℚ
  guaranteedDiscount : Option ℚ
  deriving DecidableEq, Inhabited

/-- One structured discount term of a detailed contract
(`contract.discount[i]`). `type = "C"` flags a conditional
discount. -/
structure DiscountTerm where
  name : Option String
  description : Option String
  discountPercent : Option ℚ
  type : Option String
  category : Option String
  deriving DecidableEq, Inhabited

/-- One contract of the detailed API response
(`detailed_api_response.data.planData.contract[i]`), of which the
discount classifier reads only the `discount` array. -/
structure DiscountContract where
  discount : Option (List DiscountTerm)
  deriving DecidableEq, Inhabited

/-- Normalized view of one energy plan record: every field of the
JSON plan object that the calculator, the eligibility filter or the
discount classifier reads.  `solar_fit_tiers` holds the result of
`extractSolarFitRates` (the tier list, sorted ascending by volume
with `null` volumes last); `raw_contracts` is `none` when the nested
`raw_plan_data_complete.main_api_response.planData.contract` chain is
missing; `discount_contracts` is the
`detailed_api_response.data.planData.contract` array (`[]` when the
chain is missing, modelling the `|| []` fallback). -/
structure PlanData where
  daily_supply_charge : ℚ
  peak_cost : Option ℚ
  shoulder_cost : Option ℚ
  off_peak_cost : Option ℚ
  membership_fee_quarterly : Option ℚ
  fees_membership_fee : Option MembershipFee
  solar_fit_tiers : List SolarTier
  detailed_time_blocks : List TimeBlock
  raw_contracts : Option (List RawContract)
  has_discounts : Bool
  pcr_costs : Option PcrCosts
  discount_contracts : List DiscountContract
  deriving DecidableEq, Inhabited

/-- The `breakdown` object returned by `calculatePlanCost`. -/
structure CostBreakdown where
  supplyCharge : ℚ
  usageCharge : ℚ
  membershipFee : ℚ
  solarCredit : ℚ
  netGridConsumption : ℚ
  solarExported : ℚ
  deriving DecidableEq, Inhabited

/-- The full result object returned by `calculatePlanCost`. -/
structure PlanCostResult where
  totalCost : ℚ
  breakdown : CostBreakdown
  monthlyCost : ℚ
  annualCost : ℚ
  planData : PlanData
  deriving DecidableEq, Inhabited

/-- Fixed supply charge for a 91-day quarter
(`calculateSupplyCharge`): cents/day to dollars/quarter. -/
def calculateSupplyCharge (dailySupplyRate : ℚ) : ℚ :=
  dailySupplyRate * 91 / 100

/-- Quarterly membership fee (`calculateMembershipFee`): the truthy
precomputed `membership_fee_quarterly` field wins; otherwise an
annual (`feeTerm === 'A'`) raw fee with a truthy amount is divided by
4; otherwise 0. -/
def calculateMembershipFee (pd : PlanData) : ℚ :=
  match truthyQ pd.membership_fee_quarterly with
  | some v => v
  | none =>
    match pd.fees_membership_fee with
    | some mf =>
      match truthyQ mf.amount with
      | some a => if mf.feeTerm = "A" then a / 4 else 0
      | none => 0
    | none => 0

/-- Usage charge (`calculateUsageCharge`): each time-of-use bucket
contributes `consumption × rate / 100` when its rate is truthy and
its consumption share is positive (the JavaScript guard
`if (planData.X_cost && consumption > 0)`). -/
def calculateUsageCharge (pd : PlanData) (netGridConsumption peakPercent shoulderPercent offPeakPercent : ℚ) : ℚ :=
  let peakConsumption := netGridConsumption * (peakPercent / 100)
  let shoulderConsumption := netGridConsumption * (shoulderPercent / 100)
  let offPeakConsumption := netGridConsumption * (offPeakPercent / 100)
  (match truthyQ pd.peak_cost with
   | some rate => if 0 < peakConsumption then peakConsumption * rate / 100 else 0
   | none => 0) +
  (match truthyQ pd.shoulder_cost with
   | some rate => if 0 < shoulderConsumption then shoulderConsumption * rate / 100 else 0
   | none => 0) +
  (match truthyQ pd.off_peak_cost with
   | some rate => if 0 < offPeakConsumption then offPeakConsumption * rate / 100 else 0
   | none => 0)

/-- Tier walk of `calculateDailySolarCredit`: consume each tier's
daily volume allowance (a falsy `volume` means unbounded, i.e. the
whole remainder), accumulate `tierExport × rate / 100`, and stop when
no export remains. -/
def dailyCreditLoop (remainingExport : ℚ) (tiers : List SolarTier) : ℚ :=
  match tiers with
  | [] => 0
  | tier :: rest =>
    if remainingExport ≤ 0 then 0
    else
      let tierLimit := match truthyQ tier.volume with
        | some v => v
        | none => remainingExport
      let tierExport := ratMin remainingExport tierLimit
      tierExport * tier.rate / 100 + dailyCreditLoop (remainingExport - tierExport) rest

/-- Daily solar credit (`calculateDailySolarCredit`): zero on
non-positive export or an empty tier list, else the tier walk. -/
def calculateDailySolarCredit (dailyExportKwh : ℚ) (solarFitTiers : List SolarTier) : ℚ :=
  if dailyExportKwh ≤ 0 ∨ solarFitTiers = [] then 0
  else dailyCreditLoop dailyExportKwh solarFitTiers

/-- Quarterly tiered solar credit (`calculateTieredSolarCredit`):
convert the quarterly export to a daily average over 91 days, apply
the tier walk, and scale the daily credit back to the quarter. -/
def calculateTieredSolarCredit (pd : PlanData) (solarExported : ℚ) : ℚ :=
  if solarExported ≤ 0 then 0
  else
    let solarFitData := pd.solar_fit_tiers
    if solarFitData = [] then 0
    else
      let dailyAverageExport := solarExported / 91
      let dailySolarCredit := calculateDailySolarCredit dailyAverageExport solarFitData
      dailySolarCredit * 91

/-- Input validation (`validateInputs`): non-positive consumption,
a negative percentage, negative solar export, a percentage total off
100 by more than 0.1, or an all-zero percentage split is rejected.
An unusually high solar export only produces a console warning. -/
def validateInputs (up : UsagePattern) : Bool :=
  if up.quarterlyConsumption ≤ 0 then false
  else if up.peakPercent < 0 ∨ up.shoulderPercent < 0 ∨ up.offPeakPercent < 0 then false
  else if up.solarExport < 0 then false
  else if ratAbs (up.peakPercent + up.shoulderPercent + up.offPeakPercent - 100) > 1/10 then false
  else if up.peakPercent = 0 ∧ up.shoulderPercent = 0 ∧ up.offPeakPercent = 0 then false
  else true

/-- Bill calculation (`calculatePlanCost`): validate, then assemble
the quarterly bill `supply + usage + membership − solar`, floored at
zero.  The JavaScript `try`/`catch` that maps the validation throw to
`null` is modelled by the `Option` result. -/
def calculatePlanCost (pd : PlanData) (up : UsagePattern) : Option PlanCostResult :=
  if validateInputs up then
    let supplyCharge := calculateSupplyCharge pd.daily_supply_charge
    let membershipFee := calculateMembershipFee pd
    let netGridConsumption := up.quarterlyConsumption
    let usageCharge := calculateUsageCharge pd netGridConsumption up.peakPercent up.shoulderPercent up.offPeakPercent
    let solarExported := up.solarExport
    let solarCredit := calculateTieredSolarCredit pd solarExported
    let finalBill := supplyCharge + usageCharge + membershipFee - solarCredit
    some
      { totalCost := ratMax 0 finalBill
        breakdown :=
          { supplyCharge := supplyCharge
            usageCharge := usageCharge
            membershipFee := membershipFee
            solarCredit := solarCredit
            netGridConsumption := netGridConsumption
            solarExported := solarExported }
        monthlyCost := ratMax 0 finalBill / 3
        annualCost := ratMax 0 finalBill * 4
        planData := pd }
  else none

/-- Case-insensitive substring test modelling
`name.toLowerCase().includes('shoulder')`. -/
def mentionsShoulder (s : String) : Bool :=
  (s.toLower.splitOn "shoulder").length > 1

/-- The inner check of `shouldDisqualifyPlan`: does some detailed
time block declare a shoulder window (`time_of_use_period === 'S'` or
a name containing "shoulder")? -/
def hasShoulderBlock (pd : PlanData) : Bool :=
  pd.detailed_time_blocks.any fun block =>
    decide (block.time_of_use_period = some "S") ||
      (match block.name with
       | some n => mentionsShoulder n
       | none => false)

/-- Demand-charge detection (`hasDemandCharge`): walk the raw
contracts and their tariff periods looking for a non-empty
`demandCharge` array; a missing raw structure yields `false` (the
JavaScript `catch` branch likewise yields `false`). -/
def hasDemandCharge (pd : PlanData) : Bool :=
  match pd.raw_contracts with
  | none => false
  | some contracts =>
    contracts.any fun contract =>
      match contract.tariffPeriod with
      | some tariffPeriods =>
        tariffPeriods.any fun tp =>
          match tp.demandCharge with
          | some dc => dc.length > 0
          | none => false
      | none => false

/-- Eligibility check (`shouldDisqualifyPlan`): demand charges, a
falsy or non-positive peak or off-peak rate, or a present
non-positive shoulder rate together with a declared shoulder window
disqualify the plan. -/
def shouldDisqualifyPlan (pd : PlanData) : Bool :=
  if hasDemandCharge pd then true
  else
    match truthyQ pd.peak_cost, truthyQ pd.off_peak_cost with
    | some peakRate, some offPeakRate =>
      if peakRate ≤ 0 ∨ offPeakRate ≤ 0 then true
      else
        match pd.shoulder_cost with
        | some shoulderRate =>
          if shoulderRate ≤ 0 then
            if hasShoulderBlock pd then true else false
          else false
        | none => false
    | _, _ => true

/-- Ranking (`calculateAndRankPlans`): drop disqualified plans,
compute each surviving plan's cost, drop failed calculations, and
stable-sort ascending by total cost (JavaScript `Array.sort` is
required to be stable, modelled by `List.mergeSort`). -/
def calculateAndRankPlans (plansData : List PlanData) (usagePattern : UsagePattern) : List PlanCostResult :=
  let calculations := (plansData.filter fun plan => !shouldDisqualifyPlan plan).filterMap
    fun plan => calculatePlanCost plan usagePattern
  calculations.mergeSort fun a b => decide (a.totalCost ≤ b.totalCost)

/-- One entry of `result.discountDetails` built by
`detectGuaranteedDiscount`. -/
structure DiscountInfo where
  name : String
  description : String
  percent : ℚ
  type : String
  category : String
  isGuaranteed : Bool
  deriving DecidableEq, Inhabited

/-- The result object of `detectGuaranteedDiscount`. -/
structure DiscountResult where
  hasGuaranteedDiscount : Bool
  guaranteedDiscountPercent : ℚ
  guaranteedQuarterlyCost : Option ℚ
  baseQuarterlyCost : Option ℚ
  discountDetails : List DiscountInfo
  deriving DecidableEq, Inhabited

/-- Processing of one structured discount term inside the contract
loop of `detectGuaranteedDiscount`: record its details, and when the
term is conditional (`type === 'C'`) clear the guaranteed status, the
percentage and the guaranteed cost. -/
def applyDiscountTerm (r : DiscountResult) (d : DiscountTerm) : DiscountResult :=
  let info : DiscountInfo :=
    { name := (truthyS d.name).getD "Unknown"
      description := (truthyS d.description).getD ""
      percent := (truthyQ d.discountPercent).getD 0
      type := (truthyS d.type).getD ""
      category := (truthyS d.category).getD ""
      isGuaranteed := decide (d.type ≠ some "C") }
  let r1 := { r with discountDetails := r.discountDetails ++ [info] }
  if d.type = some "C" then
    { r1 with
        hasGuaranteedDiscount := false
        guaranteedDiscountPercent := 0
        guaranteedQuarterlyCost := none }
  else r1

/-- All structured discount terms of a plan, in contract order (the
nested `for` loops of `detectGuaranteedDiscount` linearized). -/
def allDiscountTerms (pd : PlanData) : List DiscountTerm :=
  pd.discount_contracts.flatMap fun c => c.discount.getD []

/-- Guaranteed-discount classifier (`detectGuaranteedDiscount`).
Primary signal: the PCR reference costs (`allDiscounts ===
guaranteedDiscount && allDiscounts < noDiscounts`, with `noDiscounts
> 0`).  Secondary signal: every structured discount term is
processed, and any conditional term clears the guaranteed status. -/
def detectGuaranteedDiscount (plan : PlanData) : DiscountResult :=
  let result : DiscountResult :=
    { hasGuaranteedDiscount := false
      guaranteedDiscountPercent := 0
      guaranteedQuarterlyCost := none
      baseQuarterlyCost := none
      discountDetails := [] }
  if !plan.has_discounts then result
  else
    let r1 :=
      match plan.pcr_costs with
      | some pcrCosts =>
        let noDiscounts := (truthyQ pcrCosts.noDiscounts).getD 0
        let allDiscounts := (truthyQ pcrCosts.allDiscounts).getD 0
        let guaranteedDiscount := (truthyQ pcrCosts.guaranteedDiscount).getD 0
        if (allDiscounts = guaranteedDiscount ∧ allDiscounts < noDiscounts) ∧ 0 < noDiscounts then
          { result with
              hasGuaranteedDiscount := true
              guaranteedDiscountPercent := (noDiscounts - guaranteedDiscount) / noDiscounts * 100
              guaranteedQuarterlyCost := some guaranteedDiscount
              baseQuarterlyCost := some noDiscounts }
        else result
      | none => result
    (allDiscountTerms plan).foldl applyDiscountTerm r1

/-- The result object of `applyGuaranteedDiscount`. -/
structure DiscountedCost where
  finalCost : ℚ
  discountApplied : Bool
  discountPercent : ℚ
  savingsAmount : ℚ
  discountDetails : List DiscountInfo
  deriving DecidableEq, Inhabited

/-- Application of a guaranteed discount to a computed cost
(`applyGuaranteedDiscount`): multiply by `1 − percent/100` when the
classifier reports a guaranteed discount, else pass the cost
through. -/
def applyGuaranteedDiscount (plan : PlanData) (calculatedCost : ℚ) : DiscountedCost :=
  let discountInfo := detectGuaranteedDiscount plan
  if !discountInfo.hasGuaranteedDiscount then
    { finalCost := calculatedCost
      discountApplied := false
      discountPercent := 0
      savingsAmount := 0
      discountDetails := discountInfo.discountDetails }
  else
    let discountMultiplier := 1 - discountInfo.guaranteedDiscountPercent / 100
    let finalCost := calculatedCost * discountMultiplier
    { finalCost := finalCost
      discountApplied := true
      discountPercent := discountInfo.guaranteedDiscountPercent
      savingsAmount := calculatedCost - finalCost
      discountDetails := discountInfo.discountDetails }

/-- Profile invalidity in the words of the specification (§7 of the
spec, quoted by claim C7): percentages not summing to 100 within the
0.1 tolerance, negative consumption, negative or absurd solar export
(absurd meaning more than twice the consumption, the threshold the
code itself uses for its warning), or an all-zero percentage
split. -/
def specProfileInvalid (up : UsagePattern) : Prop :=
  ratAbs (up.peakPercent + up.shoulderPercent + up.offPeakPercent - 100) > 1/10 ∨
  up.quarterlyConsumption < 0 ∨
  up.solarExport < 0 ∨
  up.solarExport > 2 * up.quarterlyConsumption ∨
  (up.peakPercent = 0 ∧ up.shoulderPercent = 0 ∧ up.offPeakPercent = 0)

instance : DecidablePred specProfileInvalid := fun up => by
  unfold specProfileInvalid
  infer_instance

/-! Concrete records and profiles used to evaluate the definitions on
explicit inputs (the §8 scenario of the spec and small variations). -/

/-- The usage profile of the spec's concrete scenario:
1365 kWh/quarter split 75/8/17, no solar export. -/
def demoProfile : UsagePattern := ⟨1365, 75, 8, 17, 0⟩

/-- The tariff record of the spec's concrete scenario: peak 40¢,
shoulder and off-peak 27.2¢, supply 105¢/day, nothing else. -/
def demoPlanBasic : PlanData :=
  { daily_supply_charge := 105
    peak_cost := some 40
    shoulder_cost := some (272/10)
    off_peak_cost := some (272/10)
    membership_fee_quarterly := none
    fees_membership_fee := none
    solar_fit_tiers := []
    detailed_time_blocks := []
    raw_contracts := none
    has_discounts := false
    pcr_costs := none
    discount_contracts := [] }

/-- The basic record with the two-tier solar schedule 10¢ for the
first 10 kWh/day and 5¢ for the excess. -/
def solarDemoPlan : PlanData :=
  { demoPlanBasic with solar_fit_tiers := [⟨10, some 10⟩, ⟨5, none⟩] }

/-- A record whose PCR reference costs alone satisfy the
guaranteed-discount rule (100 / 90 / 90) and which carries no
structured discount term. -/
def guarDemoPlan : PlanData :=
  { demoPlanBasic with
      has_discounts := true
      pcr_costs := some ⟨some 100, some 90, some 90⟩ }

/-- The same record with one structured discount term flagged
conditional (`type = "C"`). -/
def condDemoPlan : PlanData :=
  { guarDemoPlan with
      discount_contracts :=
        [⟨some [⟨some "Pay on time", none, some 10, some "C", some "Conditional"⟩]⟩] }

/-- A record carrying one raw contract with a non-empty
`demandCharge` array. -/
def demandDemoPlan : PlanData :=
  { demoPlanBasic with raw_contracts := some [⟨some [⟨some [()]⟩]⟩] }

/-- A legitimate 2-rate record: no shoulder rate at all. -/
def twoRateDemoPlan : PlanData :=
  { demoPlanBasic with shoulder_cost := none }

/-- A second record with exactly the same bill as `demoPlanBasic`
but a distinct value (an explicit zero precomputed membership fee,
which is falsy and hence charges nothing). -/
def rankPlanB : PlanData :=
  { demoPlanBasic with membership_fee_quarterly := some 0 }

/-- The bill computed for `demoPlanBasic` under the demo profile. -/
def rankW1 : PlanCostResult :=
  (calculatePlanCost demoPlanBasic demoProfile).getD default

/-- The bill computed for `rankPlanB` under the demo profile. -/
def rankW2 : PlanCostResult :=
  (calculatePlanCost rankPlanB demoProfile).getD default

/-- Record with a shoulder rate far above the peak and off-peak
rates, used to probe the monotonicity claim. -/
def cxPlanC9 : PlanData :=
  { demoPlanBasic with
      peak_cost := some 10
      shoulder_cost := some 1000
      off_peak_cost := some 10 }

/-- Profile putting 70% of consumption in the shoulder window. -/
def cxProfileA : UsagePattern := ⟨100, 30, 70, 0, 0⟩

/-- Profile with a larger peak share but no shoulder share. -/
def cxProfileB : UsagePattern := ⟨100, 31, 0, 69, 0⟩

/-- Monotonicity witness profile: 30/20/50. -/
def c9wProfileA : UsagePattern := ⟨100, 30, 20, 50, 0⟩

/-- Monotonicity witness profile: 40/20/40 (10 points moved from
off-peak to peak). -/
def c9wProfileB : UsagePattern := ⟨100, 40, 20, 40, 0⟩

/-- A profile with zero consumption and an otherwise well-formed
percentage split. -/
def zeroConsProfile : UsagePattern := ⟨0, 50, 0, 50, 0⟩


/-! Bridge lemmas between the JavaScript-style arithmetic helpers and
their Mathlib counterparts, plus small evaluation lemmas. -/

lemma ratMax_eq_max (a b : ℚ) : ratMax a b = max a b := by
  rw [ratMax, max_def]

lemma ratMin_eq_min (a b : ℚ) : ratMin a b = min a b := by
  rw [ratMin, min_def]

lemma ratAbs_eq_abs (x : ℚ) : ratAbs x = |x| := by
  rw [ratAbs]
  rcases lt_or_le x 0 with h | h
  · rw [if_pos h, abs_of_neg h]
  · rw [if_neg (not_lt.mpr h), abs_of_nonneg h]

lemma truthyQ_some_getD (x : ℚ) : (truthyQ (some x)).getD 0 = x := by
  by_cases hx : x = 0 <;> simp [truthyQ, hx]

/-- Spelled-out characterization of `validateInputs`. -/
lemma validateInputs_iff (up : UsagePattern) :
    validateInputs up = true ↔
      0 < up.quarterlyConsumption ∧
      0 ≤ up.peakPercent ∧ 0 ≤ up.shoulderPercent ∧ 0 ≤ up.offPeakPercent ∧
      0 ≤ up.solarExport ∧
      ratAbs (up.peakPercent + up.shoulderPercent + up.offPeakPercent - 100) ≤ 1/10 ∧
      ¬(up.peakPercent = 0 ∧ up.shoulderPercent = 0 ∧ up.offPeakPercent = 0) := by
  rw [validateInputs]
  split_ifs with h1 h2 h3 h4 h5
  · simp only [false_iff]
    intro h
    exact absurd h.1 (not_lt.mpr h1)
  · simp only [false_iff]
    intro h
    rcases h2 with h2 | h2 | h2
    · exact absurd h.2.1 (not_le.mpr h2)
    · exact absurd h.2.2.1 (not_le.mpr h2)
    · exact absurd h.2.2.2.1 (not_le.mpr h2)
  · simp only [false_iff]
    intro h
    exact absurd h.2.2.2.2.1 (not_le.mpr h3)
  · simp only [false_iff]
    intro h
    exact absurd h.2.2.2.2.2.1 (not_le.mpr h4)
  · simp only [false_iff]
    intro h
    exact h.2.2.2.2.2.2 h5
  · simp only [true_iff]
    push_neg at h1 h2 h3 h4
    exact ⟨h1, h2.1, h2.2.1, h2.2.2, h3, h4, h5⟩

/-- With a valid profile, `calculatePlanCost` returns the explicit
result record. -/
lemma calculatePlanCost_eq_some (pd : PlanData) (up : UsagePattern)
    (h : validateInputs up = true) :
    calculatePlanCost pd up = some
      { totalCost := ratMax 0 (calculateSupplyCharge pd.daily_supply_charge +
          calculateUsageCharge pd up.quarterlyConsumption up.peakPercent up.shoulderPercent up.offPeakPercent +
          calculateMembershipFee pd - calculateTieredSolarCredit pd up.solarExport)
        breakdown :=
          { supplyCharge := calculateSupplyCharge pd.daily_supply_charge
            usageCharge := calculateUsageCharge pd up.quarterlyConsumption up.peakPercent up.shoulderPercent up.offPeakPercent
            membershipFee := calculateMembershipFee pd
            solarCredit := calculateTieredSolarCredit pd up.solarExport
            netGridConsumption := up.quarterlyConsumption
            solarExported := up.solarExport }
        monthlyCost := ratMax 0 (calculateSupplyCharge pd.daily_supply_charge +
          calculateUsageCharge pd up.quarterlyConsumption up.peakPercent up.shoulderPercent up.offPeakPercent +
          calculateMembershipFee pd - calculateTieredSolarCredit pd up.solarExport) / 3
        annualCost := ratMax 0 (calculateSupplyCharge pd.daily_supply_charge +
          calculateUsageCharge pd up.quarterlyConsumption up.peakPercent up.shoulderPercent up.offPeakPercent +
          calculateMembershipFee pd - calculateTieredSolarCredit pd up.solarExport) * 4
        planData := pd } := by
  rw [calculatePlanCost, if_pos h]

/-- A failed calculation is exactly a failed validation. -/
lemma calculatePlanCost_none_iff (pd : PlanData) (up : UsagePattern) :
    calculatePlanCost pd up = none ↔ validateInputs up = false := by
  rw [calculatePlanCost]
  rcases hv : validateInputs up with _ | _
  · simp
  · simp

/-- One usage bucket of `calculateUsageCharge` equals the plain
product `consumption × rate / 100`, reading an absent rate as 0, as
soon as the consumption share is non-negative. -/
lemma usage_bucket_eq (o : Option ℚ) (c : ℚ) (hc : 0 ≤ c) :
    (match truthyQ o with
     | some rate => if 0 < c then c * rate / 100 else 0
     | none => 0) = c * o.getD 0 / 100 := by
  rcases o with _ | r
  · simp [truthyQ]
  · by_cases hr : r = 0
    · subst hr
      simp [truthyQ]
    · have ht : truthyQ (some r) = some r := by simp [truthyQ, hr]
      rw [ht]
      show (if 0 < c then c * r / 100 else 0) = c * (some r).getD 0 / 100
      simp only [Option.getD_some]
      rcases eq_or_lt_of_le hc with h | h
      · rw [if_neg (by rw [← h]; exact lt_irrefl 0), ← h, zero_mul, zero_div]
      · rw [if_pos h]

/-- Normal form of the usage charge for non-negative shares and
positive consumption: the sum over the three buckets of
`consumption × percent/100 × rate/100`, an absent rate counting 0. -/
lemma calculateUsageCharge_eq (pd : PlanData) (q pp sp op : ℚ)
    (hq : 0 < q) (hpp : 0 ≤ pp) (hsp : 0 ≤ sp) (hop : 0 ≤ op) :
    calculateUsageCharge pd q pp sp op =
      q * (pp / 100) * (pd.peak_cost.getD 0 / 100) +
      q * (sp / 100) * (pd.shoulder_cost.getD 0 / 100) +
      q * (op / 100) * (pd.off_peak_cost.getD 0 / 100) := by
  have h1 : (0:ℚ) ≤ q * (pp / 100) := by positivity
  have h2 : (0:ℚ) ≤ q * (sp / 100) := by positivity
  have h3 : (0:ℚ) ≤ q * (op / 100) := by positivity
  rw [calculateUsageCharge]
  rw [usage_bucket_eq pd.peak_cost _ h1, usage_bucket_eq pd.shoulder_cost _ h2,
    usage_bucket_eq pd.off_peak_cost _ h3]
  ring

/-- C1: for every record and valid usage profile, `calculate` returns
a bill whose `totalCost` is `max 0 (supplyCharge + usageCharge +
membershipFeeQuarterly − solarCredit)` — hence never negative — with
`supplyCharge = dailySupplyCharge × 91 / 100` and the quarterly
membership fee equal to the annual `membershipFee / 4` when present
and 0 otherwise; a guaranteed discount, when applicable, scales the
cost by `1 − guaranteedPercent/100`. -/
theorem totalCost_formula (pd : PlanData) (up : UsagePattern)
    (h : validateInputs up = true) :
    (calculatePlanCost pd up).isSome = true ∧
    (∀ r : PlanCostResult, calculatePlanCost pd up = some r →
      r.totalCost = max 0 (r.breakdown.supplyCharge + r.breakdown.usageCharge +
          r.breakdown.membershipFee - r.breakdown.solarCredit) ∧
      0 ≤ r.totalCost ∧
      r.breakdown.supplyCharge = pd.daily_supply_charge * 91 / 100 ∧
      r.breakdown.solarCredit = calculateTieredSolarCredit pd up.solarExport ∧
      (pd.membership_fee_quarterly = none →
        (∀ mf a, pd.fees_membership_fee = some mf → mf.feeTerm = "A" →
            mf.amount = some a → a ≠ 0 → r.breakdown.membershipFee = a / 4) ∧
        (pd.fees_membership_fee = none → r.breakdown.membershipFee = 0))) ∧
    ∀ c : ℚ, (applyGuaranteedDiscount pd c).finalCost =
      if (detectGuaranteedDiscount pd).hasGuaranteedDiscount = true then
        c * (1 - (detectGuaranteedDiscount pd).guaranteedDiscountPercent / 100)
      else c := by
  have hs := calculatePlanCost_eq_some pd up h
  refine ⟨by rw [hs]; rfl, ?_, ?_⟩
  · intro r hr
    rw [hs] at hr
    replace hr := (Option.some.inj hr).symm
    subst hr
    refine ⟨by rw [ratMax_eq_max], ?_, rfl, rfl, ?_⟩
    · rw [ratMax_eq_max]
      exact le_max_left 0 _
    · intro hq
      constructor
      · intro mf a hmf hterm hamt hne
        show calculateMembershipFee pd = a / 4
        simp [calculateMembershipFee, hq, hmf, hamt, hterm, truthyQ, hne]
      · intro hfn
        show calculateMembershipFee pd = 0
        simp [calculateMembershipFee, hq, hfn, truthyQ]
  · intro c
    rcases hg : (detectGuaranteedDiscount pd).hasGuaranteedDiscount with _ | _
    · simp [applyGuaranteedDiscount, hg]
    · simp [applyGuaranteedDiscount, hg]

unseal Rat.add Rat.mul Rat.sub Rat.inv in
/-- Witness for C1 at the spec's §8 scenario. -/
theorem totalCost_formula_witness :
    validateInputs demoProfile = true ∧
    (calculatePlanCost demoPlanBasic demoProfile).isSome = true :=
  ⟨by decide, (totalCost_formula demoPlanBasic demoProfile (by decide)).1⟩

/-- C2: for every record and valid usage profile, the usage charge is
the sum over the peak, shoulder and off-peak buckets of
`quarterlyConsumptionKwh × percent/100 × rate/100` (an absent rate
contributing nothing, as does a zero share), and
`quarterlyConsumptionKwh` is used directly as the net grid
consumption. -/
theorem usageCharge_formula (pd : PlanData) (up : UsagePattern)
    (h : validateInputs up = true) :
    ∀ r : PlanCostResult, calculatePlanCost pd up = some r →
      r.breakdown.netGridConsumption = up.quarterlyConsumption ∧
      r.breakdown.usageCharge =
        up.quarterlyConsumption * (up.peakPercent / 100) * (pd.peak_cost.getD 0 / 100) +
        up.quarterlyConsumption * (up.shoulderPercent / 100) * (pd.shoulder_cost.getD 0 / 100) +
        up.quarterlyConsumption * (up.offPeakPercent / 100) * (pd.off_peak_cost.getD 0 / 100) := by
  obtain ⟨hq, hpp, hsp, hop, -, -, -⟩ := (validateInputs_iff up).mp h
  intro r hr
  rw [calculatePlanCost_eq_some pd up h] at hr
  replace hr := (Option.some.inj hr).symm
  subst hr
  exact ⟨rfl, calculateUsageCharge_eq pd _ _ _ _ hq hpp hsp hop⟩

unseal Rat.add Rat.mul Rat.sub Rat.inv in
/-- Witness for C2 at the spec's §8 scenario: the computed usage
charge is 502.32 dollars, matching the bucket formula. -/
theorem usageCharge_formula_witness :
    validateInputs demoProfile = true ∧
    rankW1.breakdown.netGridConsumption = 1365 ∧
    rankW1.breakdown.usageCharge =
      1365 * ((75:ℚ) / 100) * (40 / 100) +
      1365 * ((8:ℚ) / 100) * ((272/10) / 100) +
      1365 * ((17:ℚ) / 100) * ((272/10) / 100) :=
  ⟨by decide,
    ((usageCharge_formula demoPlanBasic demoProfile (by decide)) rankW1 (by decide)).1,
    ((usageCharge_formula demoPlanBasic demoProfile (by decide)) rankW1 (by decide)).2⟩

/-- C3: the solar credit converts the quarterly export to a daily
average over 91 days, walks the tiers consuming each volume allowance
with an unbounded tier absorbing the remainder at `rate/100` dollars
per kWh, and scales the daily credit back by 91; on the two-tier
schedule 10¢ for the first 10 kWh/day and 5¢ for the excess, a
15 kWh/day export (1365 kWh/quarter) earns 1.25 dollars/day, i.e.
113.75 dollars (455/4) for the quarter. -/
theorem solar_credit_tiering :
    (∀ (pd : PlanData) (e : ℚ), 0 < e → pd.solar_fit_tiers ≠ [] →
      calculateTieredSolarCredit pd e =
        calculateDailySolarCredit (e / 91) pd.solar_fit_tiers * 91) ∧
    (∀ (r1 r2 v d : ℚ), 0 < v → v ≤ d →
      calculateDailySolarCredit d [⟨r1, some v⟩, ⟨r2, none⟩] =
        v * r1 / 100 + (d - v) * r2 / 100) ∧
    calculateDailySolarCredit 15 [⟨10, some 10⟩, ⟨5, none⟩] = 5/4 ∧
    calculateTieredSolarCredit solarDemoPlan 1365 = 455/4 := by
  have key : ∀ (r1 r2 v d : ℚ), 0 < v → v ≤ d →
      calculateDailySolarCredit d [⟨r1, some v⟩, ⟨r2, none⟩] =
        v * r1 / 100 + (d - v) * r2 / 100 := by
    intro r1 r2 v d hv hvd
    have hd : 0 < d := lt_of_lt_of_le hv hvd
    have hv0 : v ≠ 0 := ne_of_gt hv
    have hmin : ratMin d v = v := by rw [ratMin_eq_min]; exact min_eq_right hvd
    rw [calculateDailySolarCredit,
      if_neg (by simp [not_le.mpr hd] :
        ¬(d ≤ 0 ∨ ([(⟨r1, some v⟩ : SolarTier), ⟨r2, none⟩] : List SolarTier) = []))]
    simp only [dailyCreditLoop, truthyQ, hv0, if_false, Option.some_bind, Option.none_bind,
      if_neg (not_le.mpr hd), if_neg hv0, ite_false]
    rw [hmin]
    rcases eq_or_lt_of_le hvd with heq | hlt
    · rw [← heq]
      simp
    · have h2 : ¬(d - v ≤ 0) := by linarith
      rw [if_neg h2]
      have hmin2 : ratMin (d - v) (d - v) = d - v := by rw [ratMin_eq_min, min_self]
      rw [hmin2]
      ring
  refine ⟨?_, key, ?_, ?_⟩
  · intro pd e he hne
    rw [calculateTieredSolarCredit, if_neg (not_le.mpr he)]
    simp [hne]
  · have := key 10 5 10 15 (by norm_num) (by norm_num)
    rw [this]
    norm_num
  · have h15 : (1365 : ℚ) / 91 = 15 := by norm_num
    rw [calculateTieredSolarCredit, if_neg (by norm_num)]
    have hne : solarDemoPlan.solar_fit_tiers ≠ [] := by
      rw [solarDemoPlan]
      simp
    simp only [if_neg hne]
    show calculateDailySolarCredit (1365 / 91) solarDemoPlan.solar_fit_tiers * 91 = 455/4
    rw [h15]
    have hts : solarDemoPlan.solar_fit_tiers = [⟨10, some 10⟩, ⟨5, none⟩] := rfl
    rw [hts, key 10 5 10 15 (by norm_num) (by norm_num)]
    norm_num

/-- Witness for C3: the general tier-walk facts applied at the
spec's two-tier example. -/
theorem solar_credit_tiering_witness :
    (0:ℚ) < 1365 ∧ solarDemoPlan.solar_fit_tiers ≠ [] ∧
    calculateTieredSolarCredit solarDemoPlan 1365 =
      calculateDailySolarCredit (1365 / 91) solarDemoPlan.solar_fit_tiers * 91 :=
  ⟨by norm_num, by rw [solarDemoPlan]; simp,
    solar_credit_tiering.1 solarDemoPlan 1365 (by norm_num) (by rw [solarDemoPlan]; simp)⟩

/-- A non-conditional discount term only appends details: the
guaranteed status, percentage and cost are untouched. -/
lemma applyDiscountTerm_fields_of_ne (r : DiscountResult) (d : DiscountTerm)
    (hd : d.type ≠ some "C") :
    (applyDiscountTerm r d).hasGuaranteedDiscount = r.hasGuaranteedDiscount ∧
    (applyDiscountTerm r d).guaranteedDiscountPercent = r.guaranteedDiscountPercent ∧
    (applyDiscountTerm r d).guaranteedQuarterlyCost = r.guaranteedQuarterlyCost := by
  simp [applyDiscountTerm, hd]

/-- Folding over conditional-free terms preserves the guaranteed
status, percentage and cost. -/
lemma foldl_no_conditional (l : List DiscountTerm) (r : DiscountResult)
    (h : ∀ d ∈ l, d.type ≠ some "C") :
    ((l.foldl applyDiscountTerm r).hasGuaranteedDiscount = r.hasGuaranteedDiscount) ∧
    ((l.foldl applyDiscountTerm r).guaranteedDiscountPercent = r.guaranteedDiscountPercent) ∧
    ((l.foldl applyDiscountTerm r).guaranteedQuarterlyCost = r.guaranteedQuarterlyCost) := by
  induction l generalizing r with
  | nil => exact ⟨rfl, rfl, rfl⟩
  | cons d t ih =>
    have hd := h d (List.mem_cons_self d t)
    have step := applyDiscountTerm_fields_of_ne r d hd
    have rest := ih (applyDiscountTerm r d) fun x hx => h x (List.mem_cons_of_mem d hx)
    simp only [List.foldl_cons]
    exact ⟨rest.1.trans step.1, rest.2.1.trans step.2.1, rest.2.2.trans step.2.2⟩

/-- Once the guaranteed status is cleared, folding further terms
keeps it cleared. -/
lemma foldl_preserves_cleared (l : List DiscountTerm) (r : DiscountResult)
    (h : r.hasGuaranteedDiscount = false ∧ r.guaranteedDiscountPercent = 0 ∧
      r.guaranteedQuarterlyCost = none) :
    ((l.foldl applyDiscountTerm r).hasGuaranteedDiscount = false) ∧
    ((l.foldl applyDiscountTerm r).guaranteedDiscountPercent = 0) ∧
    ((l.foldl applyDiscountTerm r).guaranteedQuarterlyCost = none) := by
  induction l generalizing r with
  | nil => exact h
  | cons d t ih =>
    simp only [List.foldl_cons]
    apply ih
    by_cases hd : d.type = some "C"
    · simp [applyDiscountTerm, hd]
    · have step := applyDiscountTerm_fields_of_ne r d hd
      exact ⟨step.1.trans h.1, step.2.1.trans h.2.1, step.2.2.trans h.2.2⟩

/-- A conditional term anywhere in the fold clears the guaranteed
status, percentage and cost. -/
lemma foldl_conditional_clears (l : List DiscountTerm) (r : DiscountResult)
    (h : ∃ d ∈ l, d.type = some "C") :
    ((l.foldl applyDiscountTerm r).hasGuaranteedDiscount = false) ∧
    ((l.foldl applyDiscountTerm r).guaranteedDiscountPercent = 0) ∧
    ((l.foldl applyDiscountTerm r).guaranteedQuarterlyCost = none) := by
  induction l generalizing r with
  | nil => simp at h
  | cons d t ih =>
    simp only [List.foldl_cons]
    by_cases hd : d.type = some "C"
    · apply foldl_preserves_cleared
      simp [applyDiscountTerm, hd]
    · rcases h with ⟨x, hx, hxC⟩
      rcases List.mem_cons.mp hx with rfl | hxt
      · exact absurd hxC hd
      · exact ih (applyDiscountTerm r d) ⟨x, hxt, hxC⟩

/-- C4: for a record carrying discount terms, a PCR cost triple and
no structured conditional term, the classifier reports a guaranteed
discount exactly when `allDiscounts = guaranteedDiscount` and
`allDiscounts < noDiscounts`; the guaranteed percentage is then
`(noDiscounts − guaranteedDiscount) / noDiscounts × 100`; and a
record carrying no discount terms classifies as not guaranteed. -/
theorem guaranteed_discount_iff (plan : PlanData) (pc : PcrCosts) (noD allD guarD : ℚ)
    (hhd : plan.has_discounts = true)
    (hpcr : plan.pcr_costs = some pc)
    (hno : pc.noDiscounts = some noD)
    (hallv : pc.allDiscounts = some allD)
    (hguar : pc.guaranteedDiscount = some guarD)
    (hnoC : ∀ d ∈ allDiscountTerms plan, d.type ≠ some "C")
    (hall : 0 ≤ allD) :
    ((detectGuaranteedDiscount plan).hasGuaranteedDiscount = true ↔
      (allD = guarD ∧ allD < noD)) ∧
    ((detectGuaranteedDiscount plan).hasGuaranteedDiscount = true →
      (detectGuaranteedDiscount plan).guaranteedDiscountPercent =
        (noD - guarD) / noD * 100) ∧
    ∀ q : PlanData, q.has_discounts = false →
      (detectGuaranteedDiscount q).hasGuaranteedDiscount = false := by
  refine ?_
  by_cases hcond : (allD = guarD ∧ allD < noD) ∧ 0 < noD
  · obtain ⟨⟨h1, h2⟩, h3⟩ := hcond
    have h2' : guarD < noD := h1 ▸ h2
    have hdet : detectGuaranteedDiscount plan =
        (allDiscountTerms plan).foldl applyDiscountTerm
          { hasGuaranteedDiscount := true
            guaranteedDiscountPercent := (noD - guarD) / noD * 100
            guaranteedQuarterlyCost := some guarD
            baseQuarterlyCost := some noD
            discountDetails := [] } := by
      rw [detectGuaranteedDiscount]
      simp [hhd, hpcr, hno, hallv, hguar, truthyQ_some_getD, h1, h2', h3]
    have hpres := foldl_no_conditional (allDiscountTerms plan)
      { hasGuaranteedDiscount := true
        guaranteedDiscountPercent := (noD - guarD) / noD * 100
        guaranteedQuarterlyCost := some guarD
        baseQuarterlyCost := some noD
        discountDetails := [] } hnoC
    rw [hdet]
    refine ⟨⟨fun _ => ⟨h1, h2⟩, fun _ => hpres.1⟩, fun _ => hpres.2.1, ?_⟩
    intro q hq
    rw [detectGuaranteedDiscount]
    simp [hq]
  · have hdet : detectGuaranteedDiscount plan =
        (allDiscountTerms plan).foldl applyDiscountTerm
          { hasGuaranteedDiscount := false
            guaranteedDiscountPercent := 0
            guaranteedQuarterlyCost := none
            baseQuarterlyCost := none
            discountDetails := [] } := by
      rw [detectGuaranteedDiscount]
      simp [hhd, hpcr, hno, hallv, hguar, truthyQ_some_getD, hcond]
    have hpres := foldl_no_conditional (allDiscountTerms plan)
      { hasGuaranteedDiscount := false
        guaranteedDiscountPercent := 0
        guaranteedQuarterlyCost := none
        baseQuarterlyCost := none
        discountDetails := [] } hnoC
    rw [hdet]
    refine ⟨⟨fun hg => absurd (hpres.1 ▸ hg) (by simp), fun hc => ?_⟩,
      fun hg => absurd (hpres.1 ▸ hg) (by simp), ?_⟩
    · exact absurd ⟨hc, lt_of_le_of_lt hall hc.2⟩ hcond
    · intro q hq
      rw [detectGuaranteedDiscount]
      simp [hq]

/-- Witness for C4 at a record with PCR costs 100/90/90 and no
structured terms: classified guaranteed with a 10% percentage. -/
theorem guaranteed_discount_iff_witness :
    (0:ℚ) ≤ 90 ∧
    (detectGuaranteedDiscount guarDemoPlan).hasGuaranteedDiscount = true ∧
    (detectGuaranteedDiscount guarDemoPlan).guaranteedDiscountPercent =
      (100 - 90) / 100 * 100 := by
  have T := guaranteed_discount_iff guarDemoPlan ⟨some 100, some 90, some 90⟩ 100 90 90
    rfl rfl rfl rfl rfl (by decide) (by norm_num)
  have hg := T.1.mpr ⟨rfl, by norm_num⟩
  exact ⟨by norm_num, hg, T.2.1 hg⟩

/-- C5: any structured discount term flagged conditional forces the
classifier to report no guaranteed discount, zero percentage and no
guaranteed cost, for every record. -/
theorem conditional_discount_override (plan : PlanData)
    (h : ∃ d ∈ allDiscountTerms plan, d.type = some "C") :
    (detectGuaranteedDiscount plan).hasGuaranteedDiscount = false ∧
    (detectGuaranteedDiscount plan).guaranteedDiscountPercent = 0 ∧
    (detectGuaranteedDiscount plan).guaranteedQuarterlyCost = none := by
  rw [detectGuaranteedDiscount]
  rcases hhd : plan.has_discounts with _ | _
  · simp
  · simp only [Bool.not_true, Bool.false_eq_true, if_false]
    exact foldl_conditional_clears _ _ h

/-- Witness for C5: the record whose PCR costs alone satisfy the
guaranteed rule but which carries one conditional term classifies as
not guaranteed. -/
theorem conditional_discount_override_witness :
    (detectGuaranteedDiscount condDemoPlan).hasGuaranteedDiscount = false ∧
    (detectGuaranteedDiscount condDemoPlan).guaranteedDiscountPercent = 0 ∧
    (detectGuaranteedDiscount condDemoPlan).guaranteedQuarterlyCost = none :=
  conditional_discount_override condDemoPlan (by decide)

/-- A successful calculation carries its plan. -/
lemma calculatePlanCost_planData (pd : PlanData) (up : UsagePattern) (r : PlanCostResult)
    (h : calculatePlanCost pd up = some r) : r.planData = pd := by
  rw [calculatePlanCost] at h
  split at h
  · cases Option.some.inj h
    rfl
  · exact absurd h (by simp)

/-- Unfolding of `calculateAndRankPlans`. -/
lemma rank_eq_mergeSort (plans : List PlanData) (up : UsagePattern) :
    calculateAndRankPlans plans up =
      ((plans.filter fun p => !shouldDisqualifyPlan p).filterMap
        fun p => calculatePlanCost p up).mergeSort
          fun a b => decide (a.totalCost ≤ b.totalCost) := rfl

/-- Sorting does not change membership in the ranking. -/
lemma mem_rank (plans : List PlanData) (up : UsagePattern) (r : PlanCostResult) :
    r ∈ calculateAndRankPlans plans up ↔
      r ∈ (plans.filter fun p => !shouldDisqualifyPlan p).filterMap
        fun p => calculatePlanCost p up := by
  rw [rank_eq_mergeSort]
  exact List.mem_mergeSort

/-- A disqualified plan never appears among the ranked bills. -/
lemma disqualified_not_ranked (p : PlanData) (plans : List PlanData) (up : UsagePattern)
    (hd : shouldDisqualifyPlan p = true) :
    p ∉ (calculateAndRankPlans plans up).map (·.planData) := by
  intro hmem
  rcases List.mem_map.mp hmem with ⟨r, hr, hrp⟩
  rcases List.mem_filterMap.mp ((mem_rank plans up r).mp hr) with ⟨q, hq, hcalc⟩
  have hpq : q = p := by
    rw [← hrp, calculatePlanCost_planData q up r hcalc]
  have hqd := (List.mem_filter.mp hq).2
  rw [hpq, hd] at hqd
  exact absurd hqd (by simp)

/-- A demand charge disqualifies. -/
lemma disq_of_demand (p : PlanData) (h : hasDemandCharge p = true) :
    shouldDisqualifyPlan p = true := by
  rw [shouldDisqualifyPlan, if_pos h]

/-- A missing, null, zero or non-positive peak rate disqualifies. -/
lemma disq_of_bad_peak (p : PlanData)
    (h : p.peak_cost = none ∨ ∃ r, p.peak_cost = some r ∧ r ≤ 0) :
    shouldDisqualifyPlan p = true := by
  rw [shouldDisqualifyPlan]
  rcases hd : hasDemandCharge p with _ | _
  case true => simp [hd]
  case false =>
    simp only [hd, Bool.false_eq_true, if_false]
    rcases h with h | ⟨r, hr, hr0⟩
    · simp [truthyQ, h]
    · by_cases hz : r = 0
      · subst hz
        simp [truthyQ, hr]
      · rcases ht2 : truthyQ p.off_peak_cost with _ | opk
        · simp [truthyQ, hr, hz, ht2]
        · simp [truthyQ, hr, hz, ht2, if_pos (Or.inl hr0)]

/-- A missing, null, zero or non-positive off-peak rate
disqualifies. -/
lemma disq_of_bad_offpeak (p : PlanData)
    (h : p.off_peak_cost = none ∨ ∃ r, p.off_peak_cost = some r ∧ r ≤ 0) :
    shouldDisqualifyPlan p = true := by
  rw [shouldDisqualifyPlan]
  rcases hd : hasDemandCharge p with _ | _
  case true => simp [hd]
  case false =>
    simp only [hd, Bool.false_eq_true, if_false]
    rcases ht1 : truthyQ p.peak_cost with _ | pk
    · simp [ht1]
    · rcases h with h | ⟨r, hr, hr0⟩
      · simp [truthyQ, h, ht1]
      · by_cases hz : r = 0
        · subst hz
          simp [truthyQ, hr, ht1]
        · simp [truthyQ, hr, hz, ht1, if_pos (Or.inr hr0)]

/-- A present non-positive shoulder rate together with a declared
shoulder window disqualifies. -/
lemma disq_of_bad_shoulder (p : PlanData) (sr : ℚ)
    (hsh : p.shoulder_cost = some sr) (hsr : sr ≤ 0)
    (hblock : hasShoulderBlock p = true) :
    shouldDisqualifyPlan p = true := by
  rw [shouldDisqualifyPlan]
  rcases hd : hasDemandCharge p with _ | _
  case true => simp [hd]
  case false =>
    simp only [hd, Bool.false_eq_true, if_false]
    rcases ht1 : truthyQ p.peak_cost with _ | pk
    · simp [ht1]
    · rcases ht2 : truthyQ p.off_peak_cost with _ | opk
      · simp [ht1, ht2]
      · simp only [ht1, ht2]
        split_ifs with hrates
        · rfl
        · simp [hsh, if_pos hsr, hblock]

/-- A plan with a demand-charge-free record, positive present peak
and off-peak rates, and either no shoulder rate at all or a zero
shoulder rate with no declared shoulder window, survives the
eligibility filter. -/
lemma not_disq_2rate (p : PlanData) (pr opr : ℚ)
    (hd : hasDemandCharge p = false)
    (hp : p.peak_cost = some pr) (hpr : 0 < pr)
    (ho : p.off_peak_cost = some opr) (hopr : 0 < opr)
    (hsh : p.shoulder_cost = none ∨
      (p.shoulder_cost = some 0 ∧ hasShoulderBlock p = false)) :
    shouldDisqualifyPlan p = false := by
  rw [shouldDisqualifyPlan, if_neg (by simp [hd])]
  have ht1 : truthyQ p.peak_cost = some pr := by
    simp [truthyQ, hp, ne_of_gt hpr]
  have ht2 : truthyQ p.off_peak_cost = some opr := by
    simp [truthyQ, ho, ne_of_gt hopr]
  simp only [ht1, ht2]
  rw [if_neg (by push_neg; exact ⟨hpr, hopr⟩)]
  rcases hsh with h | ⟨h, hb⟩
  · simp [h]
  · simp [h, hb]

/-- A surviving plan's bill appears among the ranked bills under any
valid profile. -/
lemma kept_is_ranked (p : PlanData) (plans : List PlanData) (up : UsagePattern)
    (hkept : shouldDisqualifyPlan p = false)
    (hv : validateInputs up = true) (hmem : p ∈ plans) :
    p ∈ (calculateAndRankPlans plans up).map (·.planData) := by
  have hcalc := calculatePlanCost_eq_some p up hv
  apply List.mem_map.mpr
  refine ⟨_, (mem_rank plans up _).mpr (List.mem_filterMap.mpr
    ⟨p, List.mem_filter.mpr ⟨hmem, by simp [hkept]⟩, hcalc⟩), rfl⟩

/-- C6: a record with a demand charge, a missing/null/non-positive
peak or off-peak rate, or a present non-positive shoulder rate
alongside declared shoulder time-block metadata, never appears in the
ranking output; a 2-rate record (shoulder rate absent, or zero with
no declared shoulder window) is kept and, under a valid profile, is
ranked. -/
theorem eligibility_exclusion (p : PlanData) (plans : List PlanData) (up : UsagePattern) :
    (hasDemandCharge p = true →
      p ∉ (calculateAndRankPlans plans up).map (·.planData)) ∧
    ((p.peak_cost = none ∨ ∃ r, p.peak_cost = some r ∧ r ≤ 0) →
      p ∉ (calculateAndRankPlans plans up).map (·.planData)) ∧
    ((p.off_peak_cost = none ∨ ∃ r, p.off_peak_cost = some r ∧ r ≤ 0) →
      p ∉ (calculateAndRankPlans plans up).map (·.planData)) ∧
    (∀ sr : ℚ, p.shoulder_cost = some sr → sr ≤ 0 → hasShoulderBlock p = true →
      p ∉ (calculateAndRankPlans plans up).map (·.planData)) ∧
    (∀ pr opr : ℚ, hasDemandCharge p = false →
      p.peak_cost = some pr → 0 < pr → p.off_peak_cost = some opr → 0 < opr →
      (p.shoulder_cost = none ∨ (p.shoulder_cost = some 0 ∧ hasShoulderBlock p = false)) →
      shouldDisqualifyPlan p = false ∧
        (validateInputs up = true → p ∈ plans →
          p ∈ (calculateAndRankPlans plans up).map (·.planData))) := by
  refine ⟨?_, ?_, ?_, ?_, ?_⟩
  · intro h
    exact disqualified_not_ranked p plans up (disq_of_demand p h)
  · intro h
    exact disqualified_not_ranked p plans up (disq_of_bad_peak p h)
  · intro h
    exact disqualified_not_ranked p plans up (disq_of_bad_offpeak p h)
  · intro sr hsh hsr hblock
    exact disqualified_not_ranked p plans up (disq_of_bad_shoulder p sr hsh hsr hblock)
  · intro pr opr hd hp hpr ho hopr hsh
    have hkept := not_disq_2rate p pr opr hd hp hpr ho hopr hsh
    exact ⟨hkept, fun hv hmem => kept_is_ranked p plans up hkept hv hmem⟩

unseal Rat.add Rat.mul Rat.sub Rat.inv in
/-- Witness for C6: the demand-charge record is excluded from a
two-record ranking, the 2-rate record survives and is ranked. -/
theorem eligibility_exclusion_witness :
    hasDemandCharge demandDemoPlan = true ∧
    demandDemoPlan ∉ (calculateAndRankPlans [demandDemoPlan, twoRateDemoPlan] demoProfile).map
      (·.planData) ∧
    shouldDisqualifyPlan twoRateDemoPlan = false ∧
    twoRateDemoPlan ∈ (calculateAndRankPlans [demandDemoPlan, twoRateDemoPlan] demoProfile).map
      (·.planData) := by
  have h1 := (eligibility_exclusion demandDemoPlan [demandDemoPlan, twoRateDemoPlan]
    demoProfile).1 (by decide)
  have h2 := (eligibility_exclusion twoRateDemoPlan [demandDemoPlan, twoRateDemoPlan]
    demoProfile).2.2.2.2 40 (272/10) (by decide) rfl (by norm_num) rfl (by norm_num)
    (Or.inl rfl)
  exact ⟨by decide, h1, h2.1, h2.2 (by decide) (by decide)⟩

/-- C8: the ranking output is a permutation of the surviving bills,
sorted ascending by `totalCost`, and any two equal-cost bills keep
their original relative order (stability). -/
theorem ranking_sorted_stable (plans : List PlanData) (up : UsagePattern) :
    List.Pairwise (fun a b : PlanCostResult => a.totalCost ≤ b.totalCost)
      (calculateAndRankPlans plans up) ∧
    (calculateAndRankPlans plans up).Perm
      ((plans.filter fun p => !shouldDisqualifyPlan p).filterMap
        fun p => calculatePlanCost p up) ∧
    ∀ a b : PlanCostResult, a.totalCost = b.totalCost →
      List.Sublist [a, b] ((plans.filter fun p => !shouldDisqualifyPlan p).filterMap
        fun p => calculatePlanCost p up) →
      List.Sublist [a, b] (calculateAndRankPlans plans up) := by
  have htrans : ∀ (a b c : PlanCostResult),
      decide (a.totalCost ≤ b.totalCost) = true →
      decide (b.totalCost ≤ c.totalCost) = true →
      decide (a.totalCost ≤ c.totalCost) = true := by
    intro a b c hab hbc
    rw [decide_eq_true_eq] at *
    exact le_trans hab hbc
  have htotal : ∀ (a b : PlanCostResult),
      (decide (a.totalCost ≤ b.totalCost) || decide (b.totalCost ≤ a.totalCost)) = true := by
    intro a b
    rw [Bool.or_eq_true, decide_eq_true_eq, decide_eq_true_eq]
    exact le_total _ _
  refine ⟨?_, ?_, ?_⟩
  · rw [rank_eq_mergeSort]
    exact (List.sorted_mergeSort htrans htotal _).imp fun h => decide_eq_true_eq.mp h
  · rw [rank_eq_mergeSort]
    exact List.mergeSort_perm _ _
  · intro a b hab hsub
    rw [rank_eq_mergeSort]
    exact List.pair_sublist_mergeSort htrans htotal
      (decide_eq_true_eq.mpr (le_of_eq hab)) hsub

unseal Rat.add Rat.mul Rat.sub Rat.inv in
/-- Witness for C8: two distinct records with identical bills stay in
input order in the ranking. -/
theorem ranking_sorted_stable_witness :
    rankW1.totalCost = rankW2.totalCost ∧
    List.Sublist [rankW1, rankW2] (([demoPlanBasic, rankPlanB].filter
      fun p => !shouldDisqualifyPlan p).filterMap
        fun p => calculatePlanCost p demoProfile) ∧
    List.Sublist [rankW1, rankW2] (calculateAndRankPlans [demoPlanBasic, rankPlanB] demoProfile) :=
  ⟨by decide, by decide,
    (ranking_sorted_stable [demoPlanBasic, rankPlanB] demoProfile).2.2 rankW1 rankW2
      (by decide) (by decide)⟩

/-- C10: a record whose raw plan data lacks the nested
contract/tariff-period structure is treated as having no demand
charge, and with acceptable rates it is not excluded from ranking. -/
theorem demand_charge_missing_data (p : PlanData) (hraw : p.raw_contracts = none) :
    hasDemandCharge p = false ∧
    (∀ pr opr : ℚ, p.peak_cost = some pr → 0 < pr →
      p.off_peak_cost = some opr → 0 < opr →
      (∀ sr : ℚ, p.shoulder_cost = some sr → sr ≤ 0 → hasShoulderBlock p = false) →
      shouldDisqualifyPlan p = false) := by
  have hdc : hasDemandCharge p = false := by
    rw [hasDemandCharge, hraw]
  refine ⟨hdc, ?_⟩
  intro pr opr hp hpr ho hopr hsh
  rw [shouldDisqualifyPlan, if_neg (by simp [hdc])]
  have ht1 : truthyQ p.peak_cost = some pr := by
    simp [truthyQ, hp, ne_of_gt hpr]
  have ht2 : truthyQ p.off_peak_cost = some opr := by
    simp [truthyQ, ho, ne_of_gt hopr]
  simp only [ht1, ht2]
  rw [if_neg (by push_neg; exact ⟨hpr, hopr⟩)]
  rcases hs : p.shoulder_cost with _ | sr
  · rfl
  · by_cases hsr : sr ≤ 0
    · simp [if_pos hsr, hsh sr hs hsr]
    · simp [if_neg hsr]

/-- Witness for C10: the basic demo record has no raw contract data,
no demand charge, and survives the filter. -/
theorem demand_charge_missing_data_witness :
    hasDemandCharge demoPlanBasic = false ∧
    shouldDisqualifyPlan demoPlanBasic = false := by
  have T := demand_charge_missing_data demoPlanBasic rfl
  refine ⟨T.1, T.2 40 (272/10) rfl (by norm_num) rfl (by norm_num) ?_⟩
  intro sr hs hsr
  rw [demoPlanBasic] at hs
  simp only at hs
  cases Option.some.inj hs
  norm_num at hsr

unseal Rat.add Rat.mul Rat.sub Rat.inv in
/-- Counterexample to C7: a profile with zero consumption, a
well-formed 50/0/50 split and no solar export is not invalid in the
sense spelled out by the claim (its consumption is not negative, its
export is neither negative nor absurd, its percentages sum to 100,
and they are not all zero), yet `calculate` fails on it. -/
theorem validation_failure_counterexample :
    calculatePlanCost demoPlanBasic zeroConsProfile = none ∧
    ¬ specProfileInvalid zeroConsProfile := by
  constructor
  · decide
  · decide

/-- C7 (amended): `calculate` fails exactly when `validateInputs`
rejects the profile, and the profile is rejected exactly when its
consumption is zero or negative, a percentage is negative, the solar
export is negative, the percentages miss 100 by more than 0.1, or all
three percentages are zero; an absurdly high solar export is allowed
(it only triggers a warning). -/
theorem validation_failure_amended (pd : PlanData) (up : UsagePattern) :
    (calculatePlanCost pd up = none ↔ validateInputs up = false) ∧
    (validateInputs up = false ↔
      (up.quarterlyConsumption ≤ 0 ∨
       up.peakPercent < 0 ∨ up.shoulderPercent < 0 ∨ up.offPeakPercent < 0 ∨
       up.solarExport < 0 ∨
       ratAbs (up.peakPercent + up.shoulderPercent + up.offPeakPercent - 100) > 1/10 ∨
       (up.peakPercent = 0 ∧ up.shoulderPercent = 0 ∧ up.offPeakPercent = 0))) := by
  refine ⟨calculatePlanCost_none_iff pd up, ?_, ?_⟩
  · intro h
    by_contra hc
    push_neg at hc
    obtain ⟨h1, h2, h3, h4, h5, h6, h7⟩ := hc
    have hv : validateInputs up = true :=
      (validateInputs_iff up).mpr
        ⟨h1, h2, h3, h4, h5, h6, fun hz => h7 hz.1 hz.2.1 hz.2.2⟩
    rw [hv] at h
    exact absurd h (by simp)
  · intro h
    rcases hb : validateInputs up with _ | _
    · rfl
    · exfalso
      obtain ⟨v1, v2, v3, v4, v5, v6, v7⟩ := (validateInputs_iff up).mp hb
      rcases h with h | h | h | h | h | h | h
      · exact absurd h (not_le.mpr v1)
      · exact absurd h (not_lt.mpr v2)
      · exact absurd h (not_lt.mpr v3)
      · exact absurd h (not_lt.mpr v4)
      · exact absurd h (not_lt.mpr v5)
      · exact absurd h (not_lt.mpr v6)
      · exact v7 h

unseal Rat.add Rat.mul Rat.sub Rat.inv in
/-- Counterexample to C9: two valid profiles with the same
consumption where the second has a strictly larger peak share, on a
record whose peak rate equals its off-peak rate (so peak ≥ off-peak),
yet the usage charge strictly decreases, because the first profile
put 70% of consumption in a far more expensive shoulder window. -/
theorem usage_monotonicity_counterexample :
    validateInputs cxProfileA = true ∧
    validateInputs cxProfileB = true ∧
    cxProfileB.quarterlyConsumption = cxProfileA.quarterlyConsumption ∧
    cxProfileA.peakPercent < cxProfileB.peakPercent ∧
    cxPlanC9.peak_cost = some 10 ∧
    cxPlanC9.off_peak_cost = some 10 ∧
    calculateUsageCharge cxPlanC9 cxProfileB.quarterlyConsumption cxProfileB.peakPercent
        cxProfileB.shoulderPercent cxProfileB.offPeakPercent <
      calculateUsageCharge cxPlanC9 cxProfileA.quarterlyConsumption cxProfileA.peakPercent
        cxProfileA.shoulderPercent cxProfileA.offPeakPercent := by
  decide

/-- C9 (amended): on a record with present peak and off-peak rates
with `offPeakRate ≤ peakRate`, moving a positive share of consumption
from the off-peak bucket to the peak bucket — consumption and
shoulder share unchanged — never decreases the usage charge. -/
theorem usage_monotonicity_amended (pd : PlanData) (u1 u2 : UsagePattern) (pr opr : ℚ)
    (hv1 : validateInputs u1 = true) (hv2 : validateInputs u2 = true)
    (hp : pd.peak_cost = some pr) (ho : pd.off_peak_cost = some opr)
    (hr : opr ≤ pr)
    (hq : u2.quarterlyConsumption = u1.quarterlyConsumption)
    (hs : u2.shoulderPercent = u1.shoulderPercent)
    (hpp : u1.peakPercent < u2.peakPercent)
    (hop : u2.offPeakPercent = u1.offPeakPercent - (u2.peakPercent - u1.peakPercent)) :
    calculateUsageCharge pd u1.quarterlyConsumption u1.peakPercent u1.shoulderPercent
        u1.offPeakPercent ≤
      calculateUsageCharge pd u2.quarterlyConsumption u2.peakPercent u2.shoulderPercent
        u2.offPeakPercent := by
  obtain ⟨hq1, hpp1, hsp1, hop1, -, -, -⟩ := (validateInputs_iff u1).mp hv1
  obtain ⟨hq2, hpp2, hsp2, hop2, -, -, -⟩ := (validateInputs_iff u2).mp hv2
  rw [calculateUsageCharge_eq pd _ _ _ _ hq1 hpp1 hsp1 hop1,
    calculateUsageCharge_eq pd _ _ _ _ hq2 hpp2 hsp2 hop2, hq, hs, hop, hp, ho]
  simp only [Option.getD_some]
  have hd : 0 < u2.peakPercent - u1.peakPercent := by linarith
  have key : 0 ≤ u1.quarterlyConsumption * (u2.peakPercent - u1.peakPercent) * (pr - opr) :=
    mul_nonneg (mul_nonneg hq1.le hd.le) (by linarith)
  nlinarith [key]

unseal Rat.add Rat.mul Rat.sub Rat.inv in
/-- Witness for the amended C9: moving 10 points from off-peak to
peak on the demo record raises the usage charge. -/
theorem usage_monotonicity_amended_witness :
    validateInputs c9wProfileA = true ∧
    validateInputs c9wProfileB = true ∧
    calculateUsageCharge demoPlanBasic c9wProfileA.quarterlyConsumption
        c9wProfileA.peakPercent c9wProfileA.shoulderPercent c9wProfileA.offPeakPercent ≤
      calculateUsageCharge demoPlanBasic c9wProfileB.quarterlyConsumption
        c9wProfileB.peakPercent c9wProfileB.shoulderPercent c9wProfileB.offPeakPercent :=
  ⟨by decide, by decide,
    usage_monotonicity_amended demoPlanBasic c9wProfileA c9wProfileB 40 (272/10)
      (by decide) (by decide) rfl rfl (by decide) rfl rfl (by decide) (by decide)⟩

unseal Rat.add Rat.mul Rat.sub Rat.inv in
/-- Witness for the amended C7 at a concrete record and the
zero-consumption profile. -/
theorem validation_failure_amended_witness :
    (calculatePlanCost demoPlanBasic zeroConsProfile = none ↔
      validateInputs zeroConsProfile = false) ∧
    validateInputs zeroConsProfile = false :=
  ⟨(validation_failure_amended demoPlanBasic zeroConsProfile).1, by decide⟩
